import Mathlib

/-!
Verification of the weather-alert pipeline (location → fetch-with-retry →
slot classification → alert scheduling → cache write-back).

Shallow embedding conventions:
  * Timestamps are epoch milliseconds (`Int`); the ISO-8601 strings of the
    source are injective encodings of such instants, and dayjs comparisons
    (`isAfter`, `isBefore`, `subtract(1, "hour")`) are the corresponding
    integer operations.
  * Floating-point weather readings are modelled as rationals (`ℚ`).
  * Each run of the orchestrator `load` callback is modelled as a pure state
    transformer: reads of React state inside the callback use the values
    captured at cycle start (the closure is recreated from its dependency
    array between cycles), writes accumulate into the result state; refs
    (`lastNotifiedISORef`, `lastFetchRef`) are read and written live, which
    coincides with the captured values here because each is written at most
    once per cycle, after every read.
-/

/-- One hourly forecast slot, as produced by `parse` in
`src/services/meteomatics.js` (fields `time`, `tempC`, `precipMM`, `windMS`,
`symbol`). -/
structure Slot where
  time : Int
  tempC : ℚ
  precipMM : ℚ
  windMS : ℚ
  symbol : Option Int
deriving DecidableEq, Repr

/-- Result of `assessSlot` in `src/utils/weatherLogic.js`. -/
structure Assessment where
  isBad : Bool
  reasons : List String
  advice : String
deriving DecidableEq, Repr

/-- JS `String.prototype.trim()`: strip leading and trailing whitespace.
Defined structurally over the character list so that it evaluates inside the
kernel (the library `String.trim` is definitionally opaque here). -/
def jsTrim (s : String) : String :=
  ⟨((s.data.dropWhile Char.isWhitespace).reverse.dropWhile Char.isWhitespace).reverse⟩

/-- The rain threshold `0.2` of `weatherLogic.js`, written as `mkRat 2 10`
so that comparisons against it evaluate inside the kernel. -/
def rainThreshold : ℚ := mkRat 2 10

theorem rainThreshold_eq : rainThreshold = 0.2 := by
  norm_num [rainThreshold]

/-- `assessSlot` from `src/utils/weatherLogic.js` lines 7-33, translated
clause by clause: the five threshold flags, the reason-list pushes (heavy
rain and rain are an if/else-if pair), `isBad = reasons.length > 0`, and the
advice string built by reassignment and concatenation, finally trimmed. -/
def assessSlot (slot : Slot) : Assessment :=
  let cold : Bool := decide (slot.tempC ≤ 3)
  let veryHot : Bool := decide (30 ≤ slot.tempC)
  let heavyRain : Bool := decide (2 ≤ slot.precipMM)
  let rain : Bool := decide (rainThreshold ≤ slot.precipMM)
  let windy : Bool := decide (10 ≤ slot.windMS)
  let reasons : List String :=
    (if heavyRain then ["heavy rain"] else if rain then ["rain"] else [])
      ++ (if windy then ["strong wind"] else [])
      ++ (if cold then ["cold"] else [])
      ++ (if veryHot then ["heat"] else [])
  let isBad : Bool := decide (0 < reasons.length)
  let advice : String :=
    if isBad then
      let a0 := if heavyRain then "Bring a sturdy umbrella and waterproof jacket."
                else if rain then "Pack an umbrella or raincoat."
                else "Normal conditions."
      let a1 := if windy then a0 ++ " Wear a windbreaker and secure loose items." else a0
      let a2 := if cold then a1 ++ " Dress warmly (coat, gloves)." else a1
      if veryHot then a2 ++ " Stay hydrated and wear sunscreen." else a2
    else "Normal conditions."
  { isBad := isBad, reasons := reasons, advice := jsTrim advice }

/-- The predicate scanned for by `findNextBadWeatherSlot`
(`src/utils/weatherLogic.js` line 38): the slot lies strictly after `now`
(`dayjs(s.time).isAfter(now)`) and is assessed as bad. -/
def isBadAfter (now : Int) (s : Slot) : Bool :=
  decide (now < s.time) && (assessSlot s).isBad

/-- `findNextBadWeatherSlot` from `src/utils/weatherLogic.js` lines 36-39:
`forecast.find(s => dayjs(s.time).isAfter(now) && assessSlot(s).isBad) || null`. -/
def findNextBadWeatherSlot (now : Int) (forecast : List Slot) : Option Slot :=
  forecast.find? (isBadAfter now)

/-- Milliseconds in one hour (the unit of `dayjs subtract(1, "hour")`). -/
def hourMs : Int := 3600000

/-- The alert fire time computed in `useWeather.js` line 160:
`notifyAt = eventTime.subtract(1, "hour")`. -/
def notifyAt (t : Int) : Int := t - hourMs

/-- `scheduleWeatherAlert` from `src/notifications/notificationService.js`
lines 26-32. Returns whether a request was actually submitted to the OS
subsystem: `if (!when || dayjs(when).isBefore(dayjs())) return null` drops
the request, otherwise `Notifications.scheduleNotificationAsync` is invoked.
The title/body payload is display-only and not modelled. -/
def scheduleWeatherAlert (now : Int) (wh : Option Int) : Bool :=
  match wh with
  | none => false
  | some w => !decide (w < now)

/-- Cache key of `cacheKeyFor` in `src/services/cache.js` lines 4-7:
`wx:${lat.toFixed(2)},${lon.toFixed(2)}:${iso.slice(0,13)}`. The string is
injective in its three components (the separators never occur inside them),
so the key is modelled by the component triple: latitude and longitude in
rounded hundredths of a degree, and the calendar hour (`YYYY-MM-DDTHH`,
i.e. the epoch time truncated to the hour). -/
structure CacheKey where
  latR : Int
  lonR : Int
  hour : Int
deriving DecidableEq, Repr

/-- JS `Number(x).toFixed(2)` as an integer count of hundredths: rounding to
two decimal places with ties away from zero, i.e. `⌊100x + 1/2⌋` for
nonnegative `x` and `-⌊-100x + 1/2⌋` otherwise, written directly on the
numerator and denominator (`⌊100x + 1/2⌋ = fdiv (200 num + den) (2 den)`) so
that it evaluates inside the kernel. -/
def toFixed2 (x : ℚ) : Int :=
  if 0 ≤ x.num then (200 * x.num + (x.den : Int)).fdiv (2 * (x.den : Int))
  else -((-(200 * x.num) + (x.den : Int)).fdiv (2 * (x.den : Int)))

/-- `new Date().toISOString().slice(0, 13)` keeps `YYYY-MM-DDTHH`: the epoch
instant truncated to its calendar hour. Epoch times are nonnegative, where
`Int` division by `hourMs` is exactly that truncation. -/
def hourOf (tMs : Int) : Int := tMs / hourMs

/-- `cacheKeyFor(lat, lon)` from `src/services/cache.js`, with the implicit
`new Date()` made an explicit `nowMs` argument. -/
def cacheKeyFor (lat lon : ℚ) (nowMs : Int) : CacheKey :=
  ⟨toFixed2 lat, toFixed2 lon, hourOf nowMs⟩

/-- Weather payload held by the orchestrator and the cache:
`{ current, forecast }` as returned by `getWeather`. -/
structure WeatherData where
  current : Slot
  forecast : List Slot
deriving DecidableEq, Repr

/-- The blob stored by `saveWeather`: `JSON.stringify({ t: Date.now(), data })`. -/
structure StoredEntry where
  t : Int
  data : WeatherData
deriving DecidableEq, Repr

/-- AsyncStorage contents: string-keyed blobs. `setItem` overwrites, modelled
by consing (lookups take the most recent binding). -/
abbrev Store := List (CacheKey × StoredEntry)

/-- `saveWeather(key, data)` from `src/services/cache.js` lines 9-13. -/
def saveWeather (key : CacheKey) (nowMs : Int) (data : WeatherData) (store : Store) : Store :=
  (key, ⟨nowMs, data⟩) :: store

/-- `loadWeather(key)` from `src/services/cache.js` lines 15-24: a missing or
malformed entry yields `none`, otherwise `parsed.data`. -/
def loadWeather (key : CacheKey) (store : Store) : Option WeatherData :=
  (store.find? (fun p => decide (p.1 = key))).map (fun p => p.2.data)

/-- Outcome of the one axios GET performed by `getWeather`
(`src/services/meteomatics.js`, the single-request variant): either a parsed
nonempty slot array (`arr[0]` is the current slot), or an axios failure
carrying `e.response?.status`, `e.code` and `e.message`. -/
inductive ProviderOutcome where
  | success (first : Slot) (rest : List Slot)
  | failure (status : Option Nat) (code : Option String) (message : String)

/-- `getWeather(lat, lon)` from `src/services/meteomatics.js` lines 21-45:
missing credentials throw before the request; a 401 response maps to the
Unauthorized message, `ECONNABORTED` to the timeout message, anything else to
the generic provider message; success returns
`{ current: arr[0], forecast: arr }`. -/
def getWeather (credsPresent : Bool) (o : ProviderOutcome) : Except String WeatherData :=
  if !credsPresent then
    .error "Missing Meteomatics credentials (.env/app.config.js). Restart with `npm start -c` after changes."
  else
    match o with
    | .success first rest => .ok ⟨first, first :: rest⟩
    | .failure status code message =>
      if status = some 401 then
        .error "401 Unauthorized from Meteomatics — check username/password."
      else if code = some "ECONNABORTED" then
        .error "Weather request timed out."
      else
        .error ("Meteomatics error: "
          ++ (match status with | some c => toString c | none => "") ++ " " ++ message)

/-- Loop body of `withRetry` (`useWeather.js` lines 16-27): attempt index `i`
runs while `i < tries`; a success returns at once, a failure records
`lastErr` and continues; after the loop `lastErr` is thrown (`none` models
the `undefined` of a zero-trip loop). The second component counts how many
times `fn` was invoked. -/
def withRetryGo (fn : Nat → Except String α) (i : Nat) (lastErr : Option String) :
    Nat → Except (Option String) α × Nat
  | 0 => (.error lastErr, 0)
  | remaining + 1 =>
    match fn i with
    | .ok a => (.ok a, 1)
    | .error e =>
      let r := withRetryGo fn (i + 1) (some e) remaining
      (r.1, r.2 + 1)

/-- `withRetry(fn, tries)` from `useWeather.js` lines 16-27, with the
attempts of `fn` supplied as a function of the attempt index. -/
def withRetry (fn : Nat → Except String α) (tries : Nat) : Except (Option String) α :=
  (withRetryGo fn 0 none tries).1

/-- Number of attempts `withRetry(fn, tries)` actually makes. -/
def attemptCount (fn : Nat → Except String α) (tries : Nat) : Nat :=
  (withRetryGo fn 0 none tries).2

/-- Orchestrator status values of `useWeather` (`useWeather.js` line 61). -/
inductive Status where
  | idle
  | loading
  | done
  | error
deriving DecidableEq, Repr

/-- The state read and written by one `load` cycle: the React state fields
`status`, `error`, `current`, `forecast` and the refs `lastNotifiedISORef`
(slot timestamp last alerted, `null` initially) and `lastFetchRef`, plus the
AsyncStorage contents touched through the cache module. -/
structure OrchState where
  status : Status
  error : Option String
  current : Option Slot
  forecast : List Slot
  lastNotifiedISO : Option Int
  lastFetch : Int
  store : Store
deriving DecidableEq, Repr

/-- Environment of one cycle: the instant `now` (`dayjs()` / `Date.now()` /
the `new Date()` of `cacheKeyFor`), the location results, and the provider
response for each retry attempt (already closed over this cycle's
coordinates). -/
structure LoadEnv where
  now : Int
  lastKnown : Option (ℚ × ℚ)
  freshFix : Option (ℚ × ℚ)
  fetch : Nat → Except String WeatherData

/-- Result of one cycle: the state after all writes, whether the alert branch
invoked `scheduleWeatherAlert`, and whether that invocation actually
submitted a request to the OS notification subsystem. -/
structure LoadResult where
  state : OrchState
  scheduleCalled : Bool
  submitted : Bool
deriving DecidableEq, Repr

/-- Fallback coordinate (Dublin), `useWeather.js` line 11. -/
def FALLBACK : ℚ × ℚ := (53.3501, -6.2661)

/-- Coordinate resolution of `useWeather.js` lines 104-132: last-known fix
first, overridden by a fresh fix when one arrives within the 4 s deadline,
the Dublin fallback when neither is available. -/
def resolveCoords (e : LoadEnv) : ℚ × ℚ :=
  match e.freshFix with
  | some c => c
  | none =>
    match e.lastKnown with
    | some c => c
    | none => FALLBACK

/-- `e.message ?? String(e)` for the value thrown by `withRetry`: our errors
are the thrown messages themselves; a zero-trip loop throws `undefined`,
which `String(...)` renders as shown. -/
def errToMessage : Option String → String
  | some m => m
  | none => "undefined"

/-- Step 4 of `load` (`useWeather.js` lines 156-167): find the next bad slot
of the fresh forecast; when one exists and its timestamp differs from the
`lastNotifiedISORef` marker, invoke `scheduleWeatherAlert` with fire time one
hour before the slot and then set the marker to the slot timestamp
(unconditionally, whether or not the alert was actually submitted). Returns
(new marker, invoked?, submitted?). -/
def alertStep (now : Int) (marker : Option Int) (forecast : List Slot) :
    Option Int × Bool × Bool :=
  match findNextBadWeatherSlot now forecast with
  | some nextBad =>
    if marker ≠ some nextBad.time then
      (some nextBad.time, true, scheduleWeatherAlert now (some (notifyAt nextBad.time)))
    else (marker, false, false)
  | none => (marker, false, false)

/-- The optimistic cached-show step (`useWeather.js` lines 108-117): on a
first run (`lastFetchRef === 0 && status === "idle"`) with a last-known
coordinate whose cache key hits, show the cached forecast immediately
(status `done`); otherwise leave the state as it stood after the
`loading`/error reset `s1`. -/
def optimisticShow (e : LoadEnv) (st0 s1 : OrchState) : OrchState :=
  match e.lastKnown with
  | some (la, lo) =>
    if st0.lastFetch = 0 ∧ st0.status = .idle then
      match loadWeather (cacheKeyFor la lo e.now) st0.store with
      | some cached =>
        { s1 with current := some cached.current, forecast := cached.forecast,
                  status := .done }
      | none => s1
    else s1
  | none => s1

/-- The `changed` guard of `useWeather.js` lines 144-147:
`!current || forecast.length !== data.forecast.length || current.time !== data.current.time`,
evaluated on the captured state. -/
def changedFlag (st0 : OrchState) (data : WeatherData) : Bool :=
  match st0.current with
  | none => true
  | some c =>
    decide (st0.forecast.length ≠ data.forecast.length) || decide (c.time ≠ data.current.time)

/-- One run of the `load` callback (`useWeather.js` lines 93-176):
re-entrancy guard on a captured `loading` status; set status `loading` and
clear the error; on first run (`lastFetchRef === 0 && status === "idle"`)
with a last-known coordinate, optimistically show a cached forecast; resolve
coordinates; fetch with `withRetry(.., 2)`. On fetch failure the catch block
sets status `error` only when the captured state held no current slot or an
empty forecast, and stores the message. On success, state and cache are
rewritten only when `changed` (captured current absent, slot count differs,
or current-slot timestamp differs), then the alert step runs and the cycle
ends with `lastFetchRef = Date.now()` and status `done`. -/
def load (e : LoadEnv) (st0 : OrchState) : LoadResult :=
  if st0.status = .loading then ⟨st0, false, false⟩ else
  let s1 : OrchState := { st0 with status := .loading, error := none }
  let s2 : OrchState := optimisticShow e st0 s1
  let coords := resolveCoords e
  match withRetry e.fetch 2 with
  | .error err =>
    ⟨{ s2 with
        status := if st0.current = none ∨ st0.forecast.length = 0 then .error else s2.status,
        error := some (errToMessage err) }, false, false⟩
  | .ok data =>
    let s3 : OrchState :=
      if changedFlag st0 data then
        { s2 with current := some data.current, forecast := data.forecast,
                  store := saveWeather (cacheKeyFor coords.1 coords.2 e.now) e.now data s2.store }
      else s2
    let astep := alertStep e.now st0.lastNotifiedISO data.forecast
    ⟨{ s3 with lastNotifiedISO := astep.1, lastFetch := e.now, status := .done },
      astep.2.1, astep.2.2⟩

/-! ### Sample data used by witnesses and concrete evaluations -/

/-- A slot one hour past the epoch with heavy rain. -/
def sampleBadSlot : Slot := ⟨hourMs, 20, 5, 0, none⟩

/-- A benign slot at the epoch. -/
def sampleCalmSlot : Slot := ⟨0, 20, 0, 0, none⟩

/-! ### Claims about the slot classifier -/

/-- C3: any slot with at least 2 mm of precipitation is assessed bad with the
`heavy rain` tag among its reasons, and no slot ever carries both the
`heavy rain` and the plain `rain` tag at once. -/
theorem assessSlot_heavyRain (slot : Slot) :
    (2 ≤ slot.precipMM →
      (assessSlot slot).isBad = true ∧ "heavy rain" ∈ (assessSlot slot).reasons)
    ∧ ¬("heavy rain" ∈ (assessSlot slot).reasons ∧ "rain" ∈ (assessSlot slot).reasons) := by
  constructor
  · intro h
    simp only [assessSlot, decide_eq_true h]
    constructor
    · simp
    · simp
  · by_cases hH : (2 : ℚ) ≤ slot.precipMM <;>
      by_cases hR : rainThreshold ≤ slot.precipMM <;>
      simp only [assessSlot, decide_eq_true, decide_eq_false, hH, hR] <;>
      rintro ⟨h1, h2⟩ <;> simp_all

/-- Witness for `assessSlot_heavyRain` at a concrete heavy-rain slot. -/
theorem assessSlot_heavyRain_witness :
    (assessSlot sampleBadSlot).isBad = true ∧ "heavy rain" ∈ (assessSlot sampleBadSlot).reasons :=
  (assessSlot_heavyRain sampleBadSlot).1 (by decide)

/-- C4: a slot strictly between the cold and heat thresholds, with
precipitation under 0.2 mm and wind under 10 m/s, is assessed not bad with
advice exactly `Normal conditions.`. -/
theorem assessSlot_normal (slot : Slot) (h1 : 3 < slot.tempC) (h2 : slot.tempC < 30)
    (h3 : slot.precipMM < rainThreshold) (h4 : slot.windMS < 10) :
    (assessSlot slot).isBad = false ∧ (assessSlot slot).advice = "Normal conditions." := by
  have hc : ¬(slot.tempC ≤ 3) := by linarith
  have hh : ¬((30 : ℚ) ≤ slot.tempC) := by linarith
  have hhr : ¬((2 : ℚ) ≤ slot.precipMM) := by
    intro h
    have : rainThreshold ≤ slot.precipMM := by
      rw [rainThreshold_eq]; norm_num; linarith
    exact absurd this (not_le.mpr h3)
  have hr : ¬(rainThreshold ≤ slot.precipMM) := not_le.mpr h3
  have hw : ¬((10 : ℚ) ≤ slot.windMS) := not_le.mpr h4
  simp [assessSlot, hc, hh, hhr, hr, hw, jsTrim]

/-- Witness for `assessSlot_normal` at a concrete calm slot. -/
theorem assessSlot_normal_witness :
    (assessSlot sampleCalmSlot).isBad = false ∧
    (assessSlot sampleCalmSlot).advice = "Normal conditions." :=
  assessSlot_normal sampleCalmSlot (by decide) (by decide) (by decide) (by decide)

/-! ### Claims about the bad-slot scan -/

/-- C5: `findNextBadWeatherSlot` returns the first slot strictly after `now`
assessed bad (every earlier slot fails the predicate), returns `none` exactly
when no slot qualifies, and its result depends only on the forecast up to and
including the matching slot: two forecasts sharing the prefix in which the
first match occurs give the same result. -/
theorem findNextBadWeatherSlot_spec (now : Int) (l : List Slot) :
    (∀ s, findNextBadWeatherSlot now l = some s →
      (now < s.time ∧ (assessSlot s).isBad = true) ∧
      ∃ i, ∃ hi : i < l.length, l.get ⟨i, hi⟩ = s ∧
        ∀ j, ∀ hj : j < l.length, j < i → isBadAfter now (l.get ⟨j, hj⟩) = false)
    ∧ (findNextBadWeatherSlot now l = none ↔ ∀ s ∈ l, isBadAfter now s = false)
    ∧ (∀ p t1 t2 s, List.find? (isBadAfter now) p = some s →
        findNextBadWeatherSlot now (p ++ t1) = some s ∧
        findNextBadWeatherSlot now (p ++ t2) = some s) := by
  refine ⟨?_, ?_, ?_⟩
  · induction l with
    | nil => intro s h; simp [findNextBadWeatherSlot] at h
    | cons a rest ih =>
      intro s h
      by_cases ha : isBadAfter now a = true
      · rw [findNextBadWeatherSlot, List.find?_cons_of_pos _ ha] at h
        obtain rfl : a = s := by injection h
        refine ⟨by simpa [isBadAfter] using ha, 0, by simp, rfl, ?_⟩
        intro j hj hj0; omega
      · rw [findNextBadWeatherSlot, List.find?_cons_of_neg _ (by simpa using ha)] at h
        obtain ⟨hbad, i, hi, hget, hfirst⟩ := ih s h
        refine ⟨hbad, i + 1, by simpa using Nat.succ_lt_succ hi, by simpa using hget, ?_⟩
        intro j hj hji
        match j with
        | 0 => simpa using (by simpa using ha : isBadAfter now a = false)
        | j' + 1 =>
          have hj' : j' < rest.length := by simpa using hj
          simpa using hfirst j' hj' (by omega)
  · simp [findNextBadWeatherSlot, List.find?_eq_none]
  · intro p t1 t2 s hp
    induction p with
    | nil => simp at hp
    | cons a rest ih =>
      by_cases ha : isBadAfter now a = true
      · rw [List.find?_cons_of_pos _ ha] at hp
        obtain rfl : a = s := by injection hp
        constructor <;>
          simp [findNextBadWeatherSlot, List.find?_cons_of_pos _ ha]
      · rw [List.find?_cons_of_neg _ (by simpa using ha)] at hp
        obtain ⟨ih1, ih2⟩ := ih hp
        constructor <;>
          · rw [findNextBadWeatherSlot, List.cons_append,
              List.find?_cons_of_neg _ (by simpa using ha)]
            first
              | exact ih1
              | exact ih2

/-- Witness for `findNextBadWeatherSlot_spec`: on the one-slot forecast
holding `sampleBadSlot`, the scan at `now = 0` returns that slot. -/
theorem findNextBadWeatherSlot_spec_witness :
    findNextBadWeatherSlot 0 [sampleBadSlot] = some sampleBadSlot :=
  ((findNextBadWeatherSlot_spec 0 [sampleBadSlot]).2.2
    [sampleBadSlot] [] [] sampleBadSlot (by decide)).1

/-! ### Claims about alert scheduling -/

/-- C6 counterexample: a fire time exactly equal to the scheduling instant is
not strictly in the future, yet `scheduleWeatherAlert` submits the request
(the guard `dayjs(when).isBefore(dayjs())` only drops strictly past fire
times). At event time `hourMs` the computed fire time is `0`, and scheduling
at instant `0` submits. -/
theorem scheduleWeatherAlert_boundary_cex :
    notifyAt hourMs = 0 ∧ scheduleWeatherAlert 0 (some (notifyAt hourMs)) = true := by
  decide

/-- C6 amended: the fire time is exactly one hour before the event time, and
the invocation is a no-op (nothing submitted) precisely when the fire time is
strictly before the scheduling instant; a fire time equal to the instant is
still submitted. -/
theorem scheduleWeatherAlert_spec (t now : Int) :
    notifyAt t = t - hourMs ∧
    (scheduleWeatherAlert now (some (notifyAt t)) = false ↔ notifyAt t < now) := by
  refine ⟨rfl, ?_⟩
  simp [scheduleWeatherAlert]

/-! ### Claims about the retry policy -/

/-- A fetch whose every attempt hits a 401 provider response. -/
def fetch401 : Nat → Except String WeatherData :=
  fun _ => getWeather true (.failure (some 401) none "Request failed with status code 401")

/-- C2 counterexample: when the provider answers 401 on the first attempt,
`withRetry` still makes a second attempt (attempt count 2, not 1) before the
Unauthorized error propagates — the retry helper never inspects the error, so
the claimed short-circuit does not happen. -/
theorem withRetry_401_second_attempt_cex :
    attemptCount fetch401 2 = 2 ∧
    withRetry fetch401 2 =
      .error (some "401 Unauthorized from Meteomatics — check username/password.") :=
  ⟨rfl, rfl⟩

/-- C2 amended: a 401-class provider response maps to the Unauthorized error,
but retry is not short-circuited: when every attempt answers 401, `withRetry`
with the orchestrator budget of 2 uses both attempts and only then fails with
the Unauthorized error. -/
theorem withRetry_401_spec (msg : String) (fn : Nat → Except String WeatherData)
    (h : ∀ i, fn i = getWeather true (.failure (some 401) none msg)) :
    attemptCount fn 2 = 2 ∧
    withRetry fn 2 =
      .error (some "401 Unauthorized from Meteomatics — check username/password.") := by
  simp [attemptCount, withRetry, withRetryGo, h, getWeather]

/-! ### Claims about the orchestrator cycle -/

/-- A cycle at instant 0 whose weather fetch fails on both attempts with the
12 s timeout (axios `ECONNABORTED`), location unavailable. -/
def envTimeout : LoadEnv :=
  ⟨0, none, none, fun _ => getWeather true (.failure none (some "ECONNABORTED") "timeout of 12000ms exceeded")⟩

/-- The initial orchestrator state: status `idle`, nothing loaded. -/
def stInit : OrchState := ⟨.idle, none, none, [], none, 0, []⟩

/-- A state holding a previously loaded forecast (status `done`). -/
def stPrior : OrchState := ⟨.done, none, some sampleCalmSlot, [sampleCalmSlot], none, 5, []⟩

/-- C1 evaluation at the failing input: with no prior forecast the cycle ends
in `error` with the non-empty timeout message, as claimed; but with a prior
forecast in memory the cycle ends with status `loading` — not `done` as the
claim states — because `load` set status to `loading` on entry and its catch
block only ever sets `error` (and only when no prior data exists), never
restoring `done`. The stale forecast is retained and the error message is
populated, but the state machine is left stuck: every subsequent trigger is
dropped by the `status === "loading"` re-entrancy guard. -/
theorem load_fetchFail_eval :
    (load envTimeout stInit).state.status = .error ∧
    (load envTimeout stInit).state.error = some "Weather request timed out." ∧
    (load envTimeout stPrior).state.status = .loading ∧
    (load envTimeout stPrior).state.current = some sampleCalmSlot ∧
    (load envTimeout stPrior).state.forecast = [sampleCalmSlot] ∧
    (load envTimeout stPrior).state.error = some "Weather request timed out." ∧
    load envTimeout (load envTimeout stPrior).state = ⟨(load envTimeout stPrior).state, false, false⟩ := by
  decide

/-- On a cycle that passes the re-entrancy guard and whose fetch succeeds,
the marker, the alert bookkeeping and the final status are those produced by
the alert step on the fresh forecast. -/
theorem load_ok_proj (e : LoadEnv) (st0 : OrchState) (data : WeatherData)
    (hg : ¬ st0.status = .loading) (hf : withRetry e.fetch 2 = .ok data) :
    (load e st0).state.lastNotifiedISO = (alertStep e.now st0.lastNotifiedISO data.forecast).1 ∧
    (load e st0).scheduleCalled = (alertStep e.now st0.lastNotifiedISO data.forecast).2.1 ∧
    (load e st0).submitted = (alertStep e.now st0.lastNotifiedISO data.forecast).2.2 ∧
    (load e st0).state.status = .done := by
  simp [load, if_neg hg, hf]

/-- When a next bad slot exists and its time differs from the marker, the
alert step invokes the scheduler and moves the marker to the slot time. -/
theorem alertStep_hit (now : Int) (marker : Option Int) (forecast : List Slot) (nb : Slot)
    (hn : findNextBadWeatherSlot now forecast = some nb) (hm : marker ≠ some nb.time) :
    alertStep now marker forecast =
      (some nb.time, true, scheduleWeatherAlert now (some (notifyAt nb.time))) := by
  simp only [alertStep, hn]
  rw [if_pos hm]

/-- When the next bad slot carries the marker's time, the alert step is
skipped entirely. -/
theorem alertStep_skip (now : Int) (marker : Option Int) (forecast : List Slot) (nb : Slot)
    (hn : findNextBadWeatherSlot now forecast = some nb) (hm : marker = some nb.time) :
    alertStep now marker forecast = (marker, false, false) := by
  simp only [alertStep, hn]
  rw [if_neg (by simp [hm])]

/-- A heavy-rain slot at timestamp `t`. -/
def badSlotAt (t : Int) : Slot := ⟨t, 20, 5, 0, none⟩

/-- A cycle at instant `now` whose provider answers with the single bad slot
at timestamp `t` (fresh location fix at the origin). -/
def envCycle (now t : Int) : LoadEnv :=
  ⟨now, none, some (0, 0), fun _ => getWeather true (.success (badSlotAt t) [])⟩

/-- C7 counterexample: across three cycles whose next bad slots carry the
timestamps `t1`, `t2`, `t1` (the forecast changed in between and then changed
back), the scheduler is invoked in all three cycles — the timestamp `t1`
receives two scheduling calls, because the single process-wide marker only
remembers the most recently notified time. This falsifies "at most one
scheduling call per distinct bad-weather slot timestamp across every
sequence of cycles" (with `t1 = 36000000`, `t2 = 72000000`). -/
theorem alert_dedup_global_cex :
    (load (envCycle 0 36000000) stInit).scheduleCalled = true ∧
    (load (envCycle 0 36000000) stInit).state.lastNotifiedISO = some 36000000 ∧
    (load (envCycle 1 72000000) (load (envCycle 0 36000000) stInit).state).scheduleCalled
      = true ∧
    (load (envCycle 1 72000000) (load (envCycle 0 36000000) stInit).state).state.lastNotifiedISO
      = some 72000000 ∧
    (load (envCycle 2 36000000)
        (load (envCycle 1 72000000) (load (envCycle 0 36000000) stInit).state).state).scheduleCalled
      = true ∧
    (load (envCycle 2 36000000)
        (load (envCycle 1 72000000) (load (envCycle 0 36000000) stInit).state).state).state.lastNotifiedISO
      = some 36000000 := by
  decide

/-- C7 amended: scheduling is suppressed exactly when the candidate slot's
time equals the process-wide marker, which is set to the slot time right
after the (non-throwing) schedule call; hence two consecutive cycles whose
next bad slot carries the same timestamp produce exactly one scheduling
call — but distinct-timestamp uniqueness does not extend across cycles with
a different bad slot in between (see the counterexample). -/
theorem alert_dedup_consecutive (e1 e2 : LoadEnv) (st0 : OrchState) (t : Int)
    (d1 d2 : WeatherData) (s1 s2 : Slot)
    (hg : ¬ st0.status = .loading)
    (hf1 : withRetry e1.fetch 2 = .ok d1) (hf2 : withRetry e2.fetch 2 = .ok d2)
    (hn1 : findNextBadWeatherSlot e1.now d1.forecast = some s1) (ht1 : s1.time = t)
    (hn2 : findNextBadWeatherSlot e2.now d2.forecast = some s2) (ht2 : s2.time = t)
    (hm : st0.lastNotifiedISO ≠ some t) :
    (load e1 st0).scheduleCalled = true ∧
    (load e2 (load e1 st0).state).scheduleCalled = false := by
  obtain ⟨hA, hB, _, hD⟩ := load_ok_proj e1 st0 d1 hg hf1
  have hstep1 := alertStep_hit e1.now st0.lastNotifiedISO d1.forecast s1 hn1 (by rw [ht1]; exact hm)
  have hcalled1 : (load e1 st0).scheduleCalled = true := by rw [hB, hstep1]
  have hmark1 : (load e1 st0).state.lastNotifiedISO = some t := by
    rw [hA, hstep1, ht1]
  obtain ⟨hA2, hB2, _, _⟩ :=
    load_ok_proj e2 (load e1 st0).state d2 (by rw [hD]; intro h; cases h) hf2
  have hstep2 := alertStep_skip e2.now (load e1 st0).state.lastNotifiedISO d2.forecast s2 hn2
    (by rw [hmark1, ht2])
  exact ⟨hcalled1, by rw [hB2, hstep2]⟩

/-- Witness for `alert_dedup_consecutive`: two consecutive cycles both seeing
the bad slot at `t = 36000000` produce one scheduling call then a suppressed
second cycle. -/
theorem alert_dedup_consecutive_witness :
    (load (envCycle 0 36000000) stInit).scheduleCalled = true ∧
    (load (envCycle 1 36000000) (load (envCycle 0 36000000) stInit).state).scheduleCalled
      = false :=
  alert_dedup_consecutive (envCycle 0 36000000) (envCycle 1 36000000) stInit 36000000
    ⟨badSlotAt 36000000, [badSlotAt 36000000]⟩ ⟨badSlotAt 36000000, [badSlotAt 36000000]⟩
    (badSlotAt 36000000) (badSlotAt 36000000)
    (by decide) rfl rfl (by decide) rfl (by decide) rfl (by decide)

/-- The cached-show step never touches the persistent store. -/
theorem optimisticShow_store (e : LoadEnv) (st0 s1 : OrchState) :
    (optimisticShow e st0 s1).store = s1.store := by
  unfold optimisticShow
  split
  · split
    · split <;> rfl
    · rfl
  · rfl

/-- Outside the first-run `idle` state the cached-show step is inert. -/
theorem optimisticShow_not_idle (e : LoadEnv) (st0 s1 : OrchState)
    (h : ¬ st0.status = .idle) : optimisticShow e st0 s1 = s1 := by
  unfold optimisticShow
  split
  · rw [if_neg (by simp [h])]
  · rfl

/-- A strictly past fire time is dropped before submission. -/
theorem scheduleWeatherAlert_past (now w : Int) (h : w < now) :
    scheduleWeatherAlert now (some w) = false := by
  simp [scheduleWeatherAlert, h]

/-- C9: in a successful cycle the held forecast state is replaced — and the
cache write-back performed — exactly under the `changed` criterion: no
current slot held, differing slot count, or differing current-slot
timestamp. When the fresh data is identical by those criteria, current,
forecast and store are all left untouched. (The hypothesis that an `idle`
status holds no current slot excludes the unreachable configuration in which
the first-run cached-show step would fire with data already in memory.) -/
theorem change_suppression (e : LoadEnv) (st0 : OrchState) (data : WeatherData) (c : Slot)
    (hg : ¬ st0.status = .loading) (hf : withRetry e.fetch 2 = .ok data) :
    ((st0.status = .idle → st0.current = none) → st0.current = some c →
      st0.forecast.length = data.forecast.length → c.time = data.current.time →
      (load e st0).state.current = st0.current ∧
      (load e st0).state.forecast = st0.forecast ∧
      (load e st0).state.store = st0.store)
    ∧ ((st0.current = none ∨ st0.forecast.length ≠ data.forecast.length ∨
        (st0.current = some c ∧ c.time ≠ data.current.time)) →
      (load e st0).state.current = some data.current ∧
      (load e st0).state.forecast = data.forecast ∧
      (load e st0).state.store =
        saveWeather (cacheKeyFor (resolveCoords e).1 (resolveCoords e).2 e.now) e.now data
          st0.store) := by
  constructor
  · intro hidle hc hlen ht
    have hni : ¬ st0.status = .idle := by
      intro h
      rw [hidle h] at hc
      cases hc
    have hos := optimisticShow_not_idle e st0 { st0 with status := .loading, error := none } hni
    have hch : changedFlag st0 data = false := by
      simp [changedFlag, hc, hlen, ht]
    simp [load, if_neg hg, hf, hos, hch]
  · intro hch
    have hchanged : changedFlag st0 data = true := by
      rcases hch with h | h | ⟨hc2, ht2⟩
      · simp [changedFlag, h]
      · cases hcur : st0.current <;> simp [changedFlag, hcur, h]
      · simp [changedFlag, hc2, ht2]
    simp [load, if_neg hg, hf, hchanged, optimisticShow_store]

/-- Witness for `change_suppression`: a first cycle with nothing held
replaces state and writes the cache entry. -/
theorem change_suppression_witness :
    (load (envCycle 0 36000000) stInit).state.current = some (badSlotAt 36000000) ∧
    (load (envCycle 0 36000000) stInit).state.forecast = [badSlotAt 36000000] ∧
    (load (envCycle 0 36000000) stInit).state.store =
      saveWeather
        (cacheKeyFor (resolveCoords (envCycle 0 36000000)).1
          (resolveCoords (envCycle 0 36000000)).2 0) 0
        ⟨badSlotAt 36000000, [badSlotAt 36000000]⟩ [] :=
  (change_suppression (envCycle 0 36000000) stInit
      ⟨badSlotAt 36000000, [badSlotAt 36000000]⟩ sampleCalmSlot (by decide) rfl).2
    (Or.inl rfl)

/-- C10: when the alert step sees a fresh bad slot (marker differs) whose
fire time is already past, the schedule call is made but submits nothing,
and the marker is nevertheless moved to the slot time; moreover no later
cycle — the clock only moves forward — ever submits a notification for that
slot timestamp, since its fire time stays in the past. -/
theorem marker_burned_on_noop (e1 : LoadEnv) (st0 : OrchState) (d1 : WeatherData) (nb1 : Slot)
    (hg : ¬ st0.status = .loading)
    (hf1 : withRetry e1.fetch 2 = .ok d1)
    (hn1 : findNextBadWeatherSlot e1.now d1.forecast = some nb1)
    (hm : st0.lastNotifiedISO ≠ some nb1.time)
    (hpast : notifyAt nb1.time < e1.now) :
    ((load e1 st0).state.lastNotifiedISO = some nb1.time ∧
      (load e1 st0).scheduleCalled = true ∧
      (load e1 st0).submitted = false)
    ∧ ∀ (e2 : LoadEnv) (st1 : OrchState) (d2 : WeatherData) (nb2 : Slot),
        e1.now ≤ e2.now →
        ¬ st1.status = .loading →
        withRetry e2.fetch 2 = .ok d2 →
        findNextBadWeatherSlot e2.now d2.forecast = some nb2 →
        nb2.time = nb1.time →
        (load e2 st1).submitted = false := by
  constructor
  · obtain ⟨hA, hB, hC, _⟩ := load_ok_proj e1 st0 d1 hg hf1
    have hstep := alertStep_hit e1.now st0.lastNotifiedISO d1.forecast nb1 hn1 hm
    refine ⟨by rw [hA, hstep], by rw [hB, hstep], ?_⟩
    rw [hC, hstep]
    exact scheduleWeatherAlert_past e1.now _ hpast
  · intro e2 st1 d2 nb2 hle hg2 hf2 hn2 hteq
    obtain ⟨_, _, hC2, _⟩ := load_ok_proj e2 st1 d2 hg2 hf2
    by_cases hm2 : st1.lastNotifiedISO = some nb2.time
    · have hstep := alertStep_skip e2.now st1.lastNotifiedISO d2.forecast nb2 hn2 hm2
      rw [hC2, hstep]
    · have hstep := alertStep_hit e2.now st1.lastNotifiedISO d2.forecast nb2 hn2 hm2
      rw [hC2, hstep, hteq]
      exact scheduleWeatherAlert_past e2.now _ (by omega)

/-- Witness for `marker_burned_on_noop`: a bad slot at 10.5 h seen at 10 h
(fire time 9.5 h already past) burns the marker without submitting, and a
cycle one millisecond later still submits nothing for that slot. -/
theorem marker_burned_on_noop_witness :
    ((load (envCycle 36000000 37800000) stInit).state.lastNotifiedISO = some 37800000 ∧
      (load (envCycle 36000000 37800000) stInit).scheduleCalled = true ∧
      (load (envCycle 36000000 37800000) stInit).submitted = false)
    ∧ (load (envCycle 36000001 37800000) stInit).submitted = false :=
  ⟨(marker_burned_on_noop (envCycle 36000000 37800000) stInit
      ⟨badSlotAt 37800000, [badSlotAt 37800000]⟩ (badSlotAt 37800000)
      (by decide) rfl (by decide) (by decide) (by decide)).1,
   (marker_burned_on_noop (envCycle 36000000 37800000) stInit
      ⟨badSlotAt 37800000, [badSlotAt 37800000]⟩ (badSlotAt 37800000)
      (by decide) rfl (by decide) (by decide) (by decide)).2
     (envCycle 36000001 37800000) stInit
     ⟨badSlotAt 37800000, [badSlotAt 37800000]⟩ (badSlotAt 37800000)
     (by decide) (by decide) rfl (by decide) rfl⟩

/-! ### Claims about the cache -/

/-- Sample forecast payload. -/
def sampleData : WeatherData := ⟨sampleCalmSlot, [sampleCalmSlot]⟩

/-- C8: reading back the key of the same coordinate computed in the same
calendar hour returns exactly the stored forecast; once the hour differs, the
new key differs from the old one, so a store holding only old-hour entries
yields nothing for the new key. -/
theorem cache_roundtrip (lat lon : ℚ) (F : WeatherData) (t1 t2 tSave : Int) (store : Store) :
    (hourOf t1 = hourOf t2 →
      loadWeather (cacheKeyFor lat lon t2)
        (saveWeather (cacheKeyFor lat lon t1) tSave F store) = some F)
    ∧ (hourOf t1 ≠ hourOf t2 → cacheKeyFor lat lon t2 ≠ cacheKeyFor lat lon t1)
    ∧ (hourOf t1 ≠ hourOf t2 → (∀ p ∈ store, p.1.hour = hourOf t1) →
        loadWeather (cacheKeyFor lat lon t2) store = none) := by
  refine ⟨?_, ?_, ?_⟩
  · intro h
    simp [loadWeather, saveWeather, cacheKeyFor, h]
  · intro h hk
    exact h (congrArg CacheKey.hour hk).symm
  · intro h hall
    induction store with
    | nil => rfl
    | cons p rest ih =>
      have hp : p.1.hour = hourOf t1 := hall p (by simp)
      have hne : ¬(p.1 = cacheKeyFor lat lon t2) := by
        intro he
        exact h (by rw [← hp, he]; simp [cacheKeyFor])
      simp only [loadWeather]
      rw [List.find?_cons_of_neg _ (by simpa using hne)]
      exact ih (fun q hq => hall q (by simp [hq]))

/-- Witness for `cache_roundtrip`: a put at instant 0 is read back by the key
of instant 1 (same hour), and the key of the next hour misses a store holding
only hour-0 entries. -/
theorem cache_roundtrip_witness :
    loadWeather (cacheKeyFor 0 0 1) (saveWeather (cacheKeyFor 0 0 0) 0 sampleData [])
      = some sampleData ∧
    loadWeather (cacheKeyFor 0 0 hourMs)
      (saveWeather (cacheKeyFor 0 0 0) 0 sampleData []) = none :=
  ⟨(cache_roundtrip 0 0 sampleData 0 1 0 []).1 (by decide),
   (cache_roundtrip 0 0 sampleData 0 hourMs 0
      (saveWeather (cacheKeyFor 0 0 0) 0 sampleData [])).2.2 (by decide)
      (by decide)⟩

/-- Witness for `withRetry_401_spec` at a concrete 401-failing fetch. -/
theorem withRetry_401_spec_witness :
    attemptCount (fun _ => getWeather true (.failure (some 401) none "401")) 2 = 2 ∧
    withRetry (fun _ => getWeather true (.failure (some 401) none "401")) 2 =
      .error (some "401 Unauthorized from Meteomatics — check username/password.") :=
  withRetry_401_spec "401" _ (fun _ => rfl)
